import Mathlib

/-!
Verification development for the FastDaraja payment backend.

Shallow embedding of the core subsystems of the repository:
* `api/services/auth_service.py` — `TokenCache` and `AuthService.get_access_token`
* `api/core/utils.py` — `format_phone_number`
* `api/routers/websocket.py` — subscriber registry and `broadcast_payment_status`
* `api/models/stk_schemas.py` — `STKPushCallback` and its metadata-derived fields
* `api/models/b2c_schemas.py` — `B2CCallback`
* `api/routers/stk_push.py`, `api/routers/b2c.py` — callback endpoint handlers
* `api/security_middleware.py` — `payment_security_middleware`

Modelling conventions: instants (`datetime`) are integers counting seconds;
Python `None`-able values are `Option`; raising an exception is an `Except`
error (or an explicit exception slot in a result); Python truthiness of a
string is the non-empty test; JSON numeric values are rationals.
-/

namespace FastDaraja

/-! ## TokenCache (api/services/auth_service.py, lines 9-42)

`TokenCache` holds `_token : Optional[str]` and `_expiry : Optional[datetime]`.
-/

/-- The class-level state of `TokenCache`: `_token` and `_expiry`. -/
structure CacheState where
  token : Option String
  expiry : Option Int
deriving DecidableEq, Repr

/-- `TokenCache.set_token(token, expires_in)`:
`cls._token = token; cls._expiry = datetime.now() + timedelta(seconds=expires_in - 60)`.
The previous state is replaced wholesale. -/
def set_token (_st : CacheState) (now : Int) (token : String) (expires_in : Int) :
    CacheState :=
  ⟨some token, some (now + (expires_in - 60))⟩

/-- `TokenCache.get_token()`:
`if cls._token and cls._expiry and datetime.now() < cls._expiry: return cls._token`
`return None`.  Note `cls._token and ...` is Python truthiness: the empty
string is falsy, so an empty stored token is never returned. -/
def get_token (st : CacheState) (now : Int) : Option String :=
  match st.token, st.expiry with
  | some t, some e => if t ≠ "" ∧ now < e then some t else none
  | _, _ => none

/-- `TokenCache.clear_token()`: `cls._token = None; cls._expiry = None`. -/
def clear_token : CacheState := ⟨none, none⟩

/-! ## AuthService.get_access_token (api/services/auth_service.py, lines 48-124)

The outbound OAuth call is the only piece of I/O; it is an input of the
embedding: either a transport timeout (`httpx.TimeoutException`) or an HTTP
response carrying a status code and the relevant body fields
(`access_token`, `expires_in`, the latter already coerced by `int(...)`). -/

/-- Outcome of the single outbound request to the provider's OAuth endpoint. -/
inductive OAuthResult where
  | timeout : OAuthResult
  | response : Nat → Option String → Option Int → OAuthResult
deriving DecidableEq, Repr

/-- Observable outcome of one `AuthService.get_access_token` call: the
returned token or the `HTTPException` status, the resulting `TokenCache`
state, how many outbound OAuth requests were issued, and how many
`TokenCache.set_token` calls were made. -/
structure AuthOutcome where
  result : Except Nat String
  cache : CacheState
  netCalls : Nat
  setCalls : Nat
deriving Repr

/-- The `try` block of `AuthService.get_access_token` (lines 68-124), run
when the cache did not yield a token: one request is sent to the OAuth
endpoint.  A transport timeout raises `HTTPException(504)`; a non-200
status raises with that status; a 200 body whose `access_token` is missing
or falsy raises `HTTPException(500)`; otherwise the token is cached via
`TokenCache.set_token(token, int(data.get("expires_in", 3600)))` and
returned. -/
def oauth_refresh (st : CacheState) (now : Int) : OAuthResult → AuthOutcome
  | .timeout => ⟨.error 504, st, 1, 0⟩
  | .response status tok exp =>
    if status ≠ 200 then ⟨.error status, st, 1, 0⟩
    else
      match tok with
      | none => ⟨.error 500, st, 1, 0⟩
      | some t =>
        if t = "" then ⟨.error 500, st, 1, 0⟩
        else ⟨.ok t, set_token st now t (exp.getD 3600), 1, 1⟩

/-- `AuthService.get_access_token(force_refresh)` (lines 48-124): unless
`force_refresh`, a valid cached token is returned at once, with no outbound
request and no cache mutation; otherwise the refresh block runs. -/
def get_access_token (st : CacheState) (now : Int) (oauth : OAuthResult)
    (force_refresh : Bool) : AuthOutcome :=
  match (if force_refresh then none else get_token st now) with
  | some cached => ⟨.ok cached, st, 0, 0⟩
  | none => oauth_refresh st now oauth

/-! ## format_phone_number (api/core/utils.py, lines 35-75)

Python strings are modelled as lists of characters; the regex `[^\d+]`
removal keeps digits and `+` signs, and the final validation regex
`^254\d{9}$` is the conjunction: leading "254", then exactly 9 digits.
`\d` is modelled as the ASCII decimal digits. -/

/-- `re.sub(r'[^\d+]', '', phone_number)`, then strip one leading `+`, then
prepend the country code: `0XXXXXXXXX → 254XXXXXXXXX`, any string not
already starting with `254` gets `254` prepended. -/
def cleanPhone (s : List Char) : List Char :=
  let cleaned := s.filter fun c => c.isDigit || c = '+'
  let cleaned := if cleaned.head? = some '+' then cleaned.tail else cleaned
  if cleaned.head? = some '0' then '2' :: '5' :: '4' :: cleaned.tail
  else if cleaned.take 3 ≠ ['2', '5', '4'] then '2' :: '5' :: '4' :: cleaned
  else cleaned

/-- `re.match(r'^254\d{9}$', cleaned)`. -/
def validPhone (l : List Char) : Bool :=
  l.take 3 = ['2', '5', '4'] && (l.drop 3).length = 9 && (l.drop 3).all Char.isDigit

/-- `format_phone_number`: clean, normalize the prefix, then either return
the cleaned number or raise `ValueError`. -/
def format_phone_number (s : List Char) : Except String (List Char) :=
  let cleaned := cleanPhone s
  if validPhone cleaned then .ok cleaned
  else .error "Invalid phone number format"

/-! ## Subscriber hub (api/routers/websocket.py)

`clients` is a module-level Python list of live websocket handles; handles
are modelled as naturals.  `broadcast_payment_status` iterates over the list
and awaits `client.send_json(data)` on each; a send to a closed connection
raises, which aborts the loop.  The input `sendOk` records, for each client,
whether its `send_json` succeeds. -/

/-- `broadcast_payment_status(data)` (lines 17-19): the first component is
the list of clients that actually received the payload, in order; the second
is the client whose `send_json` raised, if any (the loop stops there, and
the exception propagates to the caller).  The function never touches the
`clients` registry. -/
def broadcast_payment_status (sendOk : Nat → Bool) : List Nat → List Nat × Option Nat
  | [] => ([], none)
  | c :: rest =>
    if sendOk c then
      let r := broadcast_payment_status sendOk rest
      (c :: r.1, r.2)
    else ([], some c)

/-- Registry-changing events of `websocket_endpoint` and
`broadcast_payment_status`: a connection is accepted (`clients.append`), a
disconnect is observed by the endpoint's keep-alive loop (`clients.remove`),
or a broadcast runs. -/
inductive HubEvent where
  | connect : Nat → HubEvent
  | disconnectObserved : Nat → HubEvent
  | broadcastRun : (Nat → Bool) → HubEvent

/-- Effect of each event on the `clients` list (websocket.py lines 8-19):
`connect` appends, an observed `WebSocketDisconnect` removes the first
occurrence, and `broadcast_payment_status` leaves the registry unchanged —
it contains no `clients.remove` call, even when a send raises. -/
def hubStep (clients : List Nat) : HubEvent → List Nat
  | .connect c => clients ++ [c]
  | .disconnectObserved c => clients.erase c
  | .broadcastRun _ => clients

/-! ## Callback metadata values (api/models/stk_schemas.py, api/models/b2c_schemas.py)

A JSON value appearing under `Value` in callback metadata: `null`, a number
(modelled as a rational), or a string.  A metadata item is a JSON object
whose `Name` (resp. `Key`) and `Value` keys may each be absent; `none` at
the outer `Option` means the key is absent from the object, which Python's
`dict.get` distinguishes from an explicit `null`. -/

/-- A provider-supplied metadata value. -/
inductive PVal where
  | vNone : PVal
  | vNum : Rat → PVal
  | vStr : String → PVal
deriving DecidableEq, Repr

/-- One element of `CallbackMetadata.Item`: a dict with optional `Name` and
`Value` keys. -/
structure MetaItem where
  name : Option String
  value : Option PVal
deriving DecidableEq, Repr

/-- Python `float(...)` on the plain decimal fragment (optional sign, digits,
optional fractional part); other strings raise `ValueError` (`none`). -/
def parseFloatChars (l : List Char) : Option Rat :=
  let signed : Int × List Char :=
    match l with
    | '-' :: r => (-1, r)
    | '+' :: r => (1, r)
    | r => (1, r)
  let digitsVal : List Char → Nat := fun ds =>
    ds.foldl (fun a c => a * 10 + (c.toNat - Char.toNat '0')) 0
  match (signed.2).splitOn '.' with
  | [intPart] =>
    if intPart ≠ [] ∧ intPart.all Char.isDigit then
      some ((signed.1 : Rat) * (digitsVal intPart : Rat))
    else none
  | [intPart, fracPart] =>
    if intPart ++ fracPart ≠ [] ∧ intPart.all Char.isDigit ∧
        fracPart.all Char.isDigit then
      some ((signed.1 : Rat) *
        ((digitsVal intPart : Rat) + (digitsVal fracPart : Rat) / ((10 : Rat) ^ fracPart.length)))
    else none
  | _ => none

/-- `float(item.get('Value', 0))` as used by `STKPushCallback.amount`:
an absent `Value` key defaults to `0` before conversion; `float(None)`
raises `TypeError` (`none`); a number converts to itself; a string is
parsed or raises. -/
def pyFloatOfValue : Option PVal → Option Rat
  | none => some 0
  | some .vNone => none
  | some (.vNum q) => some q
  | some (.vStr s) => parseFloatChars s.data

/-- Stand-in for Python repr of a float, used only through `pyStrOfValue`;
its exact digits are irrelevant to every stated property. -/
def floatRepr (q : Rat) : String := toString q

/-- `str(item.get('Value'))` as used by the string-valued metadata fields:
an absent `Value` key or an explicit `null` both yield the string `"None"`. -/
def pyStrOfValue : Option PVal → String
  | none => "None"
  | some .vNone => "None"
  | some (.vNum q) => floatRepr q
  | some (.vStr s) => s

/-- The `for item in items: if item.get('Name') == nm: return ...` scan:
first item whose `Name` equals `nm`, if any. -/
def firstItemNamed (nm : String) : List MetaItem → Option MetaItem
  | [] => none
  | it :: rest => if it.name = some nm then some it else firstItemNamed nm rest

/-! ## STKPushCallback (api/models/stk_schemas.py, lines 116-204)

`callback_metadata` is the raw `Optional[Dict]`; its `Item` list is the part
every accessor reads (`self.callback_metadata.get('Item', [])`), so the
model keeps the item list directly, with `none` for an absent or falsy
metadata dict. -/

/-- The validated `STKPushCallback` pydantic model. -/
structure STKPushCallback where
  merchant_request_id : String
  checkout_request_id : String
  result_code : Int
  result_desc : String
  callback_metadata : Option (List MetaItem)
deriving DecidableEq, Repr

/-- `STKPushCallback.is_successful` (lines 139-142): `result_code == 0`.
`succeeded` is not a stored field of the model; it is only ever this
derived property. -/
def STKPushCallback.is_successful (cb : STKPushCallback) : Bool :=
  cb.result_code == 0

/-- `STKPushCallback.amount` (lines 144-153): scan the metadata items for
`Name == 'Amount'` and return `float(item.get('Value', 0))`; no metadata or
no such item yields `None`.  `Except Unit` records the raising conversions. -/
def STKPushCallback.amount (cb : STKPushCallback) : Except Unit (Option Rat) :=
  match cb.callback_metadata with
  | none => .ok none
  | some items =>
    match firstItemNamed "Amount" items with
    | none => .ok none
    | some it =>
      match pyFloatOfValue it.value with
      | none => .error ()
      | some q => .ok (some q)

/-- `STKPushCallback.mpesa_receipt_number` (lines 155-164): scan for
`Name == 'MpesaReceiptNumber'` and return `str(item.get('Value'))`. -/
def STKPushCallback.mpesa_receipt_number (cb : STKPushCallback) :
    Option String :=
  match cb.callback_metadata with
  | none => none
  | some items =>
    match firstItemNamed "MpesaReceiptNumber" items with
    | none => none
    | some it => some (pyStrOfValue it.value)

/-- `STKPushCallback.transaction_date` (lines 166-175). -/
def STKPushCallback.transaction_date (cb : STKPushCallback) : Option String :=
  match cb.callback_metadata with
  | none => none
  | some items =>
    match firstItemNamed "TransactionDate" items with
    | none => none
    | some it => some (pyStrOfValue it.value)

/-- `STKPushCallback.phone_number` (lines 177-186). -/
def STKPushCallback.phone_number (cb : STKPushCallback) : Option String :=
  match cb.callback_metadata with
  | none => none
  | some items =>
    match firstItemNamed "PhoneNumber" items with
    | none => none
    | some it => some (pyStrOfValue it.value)

/-! ## Callback endpoint handlers (api/routers/stk_push.py, api/routers/b2c.py)

Each handler body is one big `try`; any exception inside it (JSON parse,
pydantic validation, a raising websocket send, a `KeyError` in the metadata
dict comprehension) lands in the `except` branch, which still returns a
`SuccessResponse`.  The embedding takes the parsed request body (or a parse
failure) and the per-client send outcomes as inputs. -/

/-- The `Body.stkCallback` object of a push-result callback request, with
every key optional (`dict.get` semantics); a missing `Body` or `stkCallback`
is the all-`none` record (`.get(..., {})`). -/
structure RawStkCallback where
  MerchantRequestID : Option String
  CheckoutRequestID : Option String
  ResultCode : Option Int
  ResultDesc : Option String
  CallbackMetadata : Option (List MetaItem)
deriving DecidableEq, Repr

/-- Pydantic validation of `STKPushCallback(...)` in `stk_push_callback`
(stk_push.py lines 109-115): the two id strings, the result code and the
result description are required (a `None` raises `ValidationError`);
`callback_metadata` is optional. -/
def validateSTK (r : RawStkCallback) : Except Unit STKPushCallback :=
  match r.MerchantRequestID, r.CheckoutRequestID, r.ResultCode, r.ResultDesc with
  | some m, some c, some rc, some rd => .ok ⟨m, c, rc, rd, r.CallbackMetadata⟩
  | _, _, _, _ => .error ()

/-- One element of `ResultParameters.ResultParameter` in a disbursement
result callback: a dict with optional `Key` and `Value`. -/
structure KVItem where
  key : Option String
  value : Option PVal
deriving DecidableEq, Repr

/-- The `Result` object of a disbursement result callback request. -/
structure RawB2CResult where
  ConversationID : Option String
  OriginatorConversationID : Option String
  TransactionID : Option String
  ResultCode : Option Int
  ResultDesc : Option String
  ResultType : Option Int
  ResultParameters : Option (List KVItem)
  ReferenceData : Option Unit
deriving DecidableEq, Repr

/-- The validated `B2CCallback` pydantic model
(b2c_schemas.py lines 121-162). -/
structure B2CCallback where
  conversation_id : Option String
  originator_conversation_id : Option String
  transaction_id : Option String
  result_code : Int
  result_desc : String
  result_type : Int
  result_parameters : Option (List KVItem)
  reference_data : Option Unit
deriving DecidableEq, Repr

/-- Pydantic validation of `B2CCallback(...)` in `b2c_result_callback`
(b2c.py lines 148-157): `result_code` and `result_desc` are required, and
since the handler passes `result_type=result.get("ResultType")` explicitly,
a missing `ResultType` arrives as `None` and fails the `int` field despite
its declared default. -/
def validateB2C (r : RawB2CResult) : Except Unit B2CCallback :=
  match r.ResultCode, r.ResultDesc, r.ResultType with
  | some rc, some rd, some rt =>
    .ok ⟨r.ConversationID, r.OriginatorConversationID, r.TransactionID,
      rc, rd, rt, r.ResultParameters, r.ReferenceData⟩
  | _, _, _ => .error ()

/-- Success-determination for a disbursement callback: the handler branches
on `callback_data.result_code == 0` (b2c.py line 166); `B2CCallback` stores
no independent success flag. -/
def b2cSucceeded (cb : B2CCallback) : Bool :=
  cb.result_code == 0

/-- What a route handler returns: a `SuccessResponse` envelope (HTTP 200
with a `message` and `data`) or a raised `HTTPException` with a status. -/
inductive HttpResponse where
  | success : String → HttpResponse
  | failure : Nat → HttpResponse
deriving DecidableEq, Repr

/-- Whether the response is a 200 success envelope. -/
def HttpResponse.isSuccess : HttpResponse → Bool
  | .success _ => true
  | .failure _ => false

/-- `stk_push_callback` (stk_push.py lines 96-151).  Input: the result of
`await request.json()` projected to the `Body.stkCallback` object (`.error`
if the JSON parse raised), the current subscriber list and send outcomes.
Inside the `try`: validate, broadcast, then on `result_code == 0` build the
`{item["Name"]: item.get("Value")}` dict (a `KeyError` when an item lacks
`Name`).  Every exception falls to the `except` branch, which still returns
a `SuccessResponse`. -/
def stk_push_callback (body : Except Unit RawStkCallback)
    (clients : List Nat) (sendOk : Nat → Bool) : HttpResponse :=
  match body with
  | .error _ => .success "Callback received"
  | .ok raw =>
    match validateSTK raw with
    | .error _ => .success "Callback received"
    | .ok cb =>
      match (broadcast_payment_status sendOk clients).2 with
      | some _ => .success "Callback received"
      | none =>
        if cb.result_code = 0 then
          match cb.callback_metadata with
          | none => .success "Callback received successfully"
          | some items =>
            if items.all fun it => it.name.isSome then
              .success "Callback received successfully"
            else .success "Callback received"
        else .success "Callback received successfully"

/-- `b2c_result_callback` (b2c.py lines 135-211): same error-absorbing
shape, with the `{item["Key"]: item.get("Value")}` comprehension on the
success branch (a `KeyError` when an item lacks `Key`). -/
def b2c_result_callback (body : Except Unit RawB2CResult)
    (clients : List Nat) (sendOk : Nat → Bool) : HttpResponse :=
  match body with
  | .error _ => .success "Callback received"
  | .ok raw =>
    match validateB2C raw with
    | .error _ => .success "Callback received"
    | .ok cb =>
      match (broadcast_payment_status sendOk clients).2 with
      | some _ => .success "Callback received"
      | none =>
        if b2cSucceeded cb then
          match cb.result_parameters with
          | none => .success "Result callback received successfully"
          | some items =>
            if items.all fun it => it.key.isSome then
              .success "Result callback received successfully"
            else .success "Callback received"
        else .success "Result callback received successfully"

/-- `b2c_timeout_callback` (b2c.py lines 214-248): parse the body, broadcast
it, return a success envelope; any exception still yields a success
envelope. -/
def b2c_timeout_callback (jsonOk : Bool)
    (clients : List Nat) (sendOk : Nat → Bool) : HttpResponse :=
  if jsonOk then
    match (broadcast_payment_status sendOk clients).2 with
    | some _ => .success "Callback received"
    | none => .success "Timeout callback received successfully"
  else .success "Callback received"

/-! ## payment_security_middleware (api/security_middleware.py)

The registry and the protected-path list are the module-level constants;
ISO-8601 parsing (`datetime.fromisoformat` after the `Z` substitution) is an
input of the embedding, returning the parsed instant in seconds or `none`
when it raises.  `ALLOWED_TIME_SKEW` is 2 minutes = 120 seconds. -/

/-- Python `str.startswith`, on the character lists of the strings. -/
def pyStartsWith (s pre : String) : Bool :=
  s.data.take pre.data.length = pre.data

/-- Keys of `REGISTERED_MERCHANTS` (security_middleware.py lines 6-9). -/
def REGISTERED_MERCHANT_KEYS : List String :=
  ["merchant_123", "merchant_456"]

/-- `PROTECTED_ENDPOINTS` (lines 21-25). -/
def PROTECTED_ENDPOINTS : List String :=
  ["/api/v1/stk-push/initiate", "/api/v1/b2c/payment", "/api/v1/b2b/payment"]

/-- The parts of an inbound request the middleware reads. -/
structure SecRequest where
  path : String
  merchantKey : Option String
  timestampHdr : Option String
deriving DecidableEq, Repr

/-- Middleware outcome: pass the request through without checks, proceed to
`call_next` after all checks passed, or raise an `HTTPException`. -/
inductive MwResult where
  | bypass : MwResult
  | proceed : MwResult
  | reject : Nat → String → MwResult
deriving DecidableEq, Repr

/-- `payment_security_middleware` (lines 34-76): paths outside `/api/v1/`
and paths not in `PROTECTED_ENDPOINTS` bypass every check; on a protected
path the checks short-circuit in order: both headers present and truthy
(else 400), merchant key registered (else 403), timestamp parses after the
`Z → +00:00` substitution (else 400), `abs(now - req_time)` within the
2-minute skew (else 400); then the request proceeds. -/
def payment_security_middleware (fromisoformat : String → Option Int)
    (now : Int) (req : SecRequest) : MwResult :=
  if ¬ pyStartsWith req.path "/api/v1/" then .bypass
  else if ¬ PROTECTED_ENDPOINTS.contains req.path then .bypass
  else
    match req.merchantKey, req.timestampHdr with
    | some mk, some ts =>
      if mk = "" ∨ ts = "" then
        .reject 400 "Missing required headers"
      else if ¬ REGISTERED_MERCHANT_KEYS.contains mk then
        .reject 403 "Invalid merchant ID"
      else
        match fromisoformat (ts.replace "Z" "+00:00") with
        | none => .reject 400 "Invalid timestamp format (use ISO 8601)"
        | some t =>
          if 120 < (now - t).natAbs then
            .reject 400 "Request timestamp too old or in the future"
          else .proceed
    | _, _ => .reject 400 "Missing required headers"

/-! ## Broadcast helper lemmas -/

/-- The clients that receive a broadcast are exactly the longest prefix of
the registry on which every send succeeds. -/
lemma broadcast_fst (sendOk : Nat → Bool) (l : List Nat) :
    (broadcast_payment_status sendOk l).1 = l.takeWhile sendOk := by
  induction l with
  | nil => rfl
  | cons c rest ih =>
    by_cases h : sendOk c = true
    · simp [broadcast_payment_status, h, List.takeWhile_cons, ih]
    · simp only [Bool.not_eq_true] at h
      simp [broadcast_payment_status, h, List.takeWhile_cons]

/-- The exception raised by a broadcast, if any, comes from the first client
whose send fails. -/
lemma broadcast_snd (sendOk : Nat → Bool) (l : List Nat) :
    (broadcast_payment_status sendOk l).2 = (l.dropWhile sendOk).head? := by
  induction l with
  | nil => rfl
  | cons c rest ih =>
    by_cases h : sendOk c = true
    · simp [broadcast_payment_status, h, List.dropWhile_cons, ih]
    · simp only [Bool.not_eq_true] at h
      simp [broadcast_payment_status, h, List.dropWhile_cons]

/-- C1: the claim fails on the code.  With clients `[0, 1]` registered and
client 0's send failing, `broadcast_payment_status` raises at client 0, so
client 1 — whose own connection is fine — receives nothing: delivery to one
subscriber is aborted by a failure to deliver to another.  Moreover the
broadcast leaves the registry unchanged, so the failing subscriber 0 is not
unregistered as a result of the failure. -/
theorem c1_counterexample :
    (broadcast_payment_status (fun c => c != 0) [0, 1]).1 = [] ∧
    (broadcast_payment_status (fun c => c != 0) [0, 1]).2 = some 0 ∧
    hubStep [0, 1] (.broadcastRun (fun c => c != 0)) = [0, 1] :=
  ⟨rfl, rfl, rfl⟩

/-- C1 amended: deliveries are attempted sequentially in registration order
with no per-subscriber error handling.  The subscribers that receive the
payload are exactly the longest prefix of the registry on which every send
succeeds; the first failing send raises out of the broadcast (so every
later subscriber receives nothing from that call), and the broadcast never
modifies the registry — a subscriber is unregistered only when its own
keep-alive handler observes the disconnect. -/
theorem c1_amended_broadcast_aborts :
    ∀ (sendOk : Nat → Bool) (clients : List Nat),
      (broadcast_payment_status sendOk clients).1 = clients.takeWhile sendOk ∧
      (broadcast_payment_status sendOk clients).2 =
        (clients.dropWhile sendOk).head? ∧
      hubStep clients (.broadcastRun sendOk) = clients ∧
      (∀ c, hubStep clients (.disconnectObserved c) = clients.erase c) :=
  fun sendOk clients =>
    ⟨broadcast_fst sendOk clients, broadcast_snd sendOk clients, rfl,
     fun _ => rfl⟩

/-- C8: when every send succeeds, each currently registered subscriber
receives exactly one copy of the payload; a subscriber not registered at the
time of the call receives nothing from it; and regardless of send outcomes
delivery is at-most-once. -/
theorem c8_fanout_exactly_once :
    ∀ (clients : List Nat) (sendOk : Nat → Bool) (c : Nat),
      (clients.Nodup → (∀ x ∈ clients, sendOk x = true) → c ∈ clients →
        (broadcast_payment_status sendOk clients).1.count c = 1) ∧
      (c ∉ clients → (broadcast_payment_status sendOk clients).1.count c = 0) ∧
      (clients.Nodup → (broadcast_payment_status sendOk clients).1.count c ≤ 1) := by
  intro clients sendOk c
  refine ⟨?_, ?_, ?_⟩
  · intro hnd hok hmem
    rw [broadcast_fst, List.takeWhile_eq_self_iff.2 hok]
    exact List.count_eq_one_of_mem hnd hmem
  · intro hnot
    rw [broadcast_fst]
    refine List.count_eq_zero_of_not_mem fun hmem => hnot ?_
    exact (List.takeWhile_sublist sendOk).subset hmem
  · intro hnd
    rw [broadcast_fst]
    exact le_trans ((List.takeWhile_sublist sendOk).count_le c)
      (List.nodup_iff_count_le_one.1 hnd c)

/-- Witness for C8 at a concrete state: three registered subscribers
`[1, 2, 3]`, all sends succeeding — subscriber 2 receives exactly one copy,
and subscriber 4, not registered at the time of the call, receives
nothing. -/
theorem c8_fanout_witness :
    (broadcast_payment_status (fun _ => true) [1, 2, 3]).1.count 2 = 1 ∧
    (broadcast_payment_status (fun _ => true) [1, 2, 3]).1.count 4 = 0 :=
  ⟨(c8_fanout_exactly_once [1, 2, 3] (fun _ => true) 2).1 (by decide)
      (fun x _ => rfl) (by decide),
   (c8_fanout_exactly_once [1, 2, 3] (fun _ => true) 4).2.1 (by decide)⟩

/-! ## TokenCache lemmas -/

/-- A successful `get_token` implies the stored token is the returned one,
it is non-empty, and the stored expiry is strictly in the future. -/
lemma get_token_some {st : CacheState} {now : Int} {t : String}
    (h : get_token st now = some t) :
    st.token = some t ∧ t ≠ "" ∧ ∃ e, st.expiry = some e ∧ now < e := by
  obtain ⟨tk, ex⟩ := st
  rcases tk with _ | tok
  · exact absurd h (by simp [get_token])
  · rcases ex with _ | e
    · exact absurd h (by simp [get_token])
    · simp only [get_token] at h
      split at h
      · rename_i hc
        injection h with h
        subst h
        exact ⟨rfl, hc.1, e, rfl, hc.2⟩
      · exact absurd h (by simp)

/-- C4: the claim fails on the code.  `set_token` with the empty string as
the token stores it, yet `get_token` at an instant strictly before the
stored expiry returns empty, because the cached token is tested for Python
truthiness and the empty string is falsy — so "returns the stored token
exactly when now is strictly before the expiry" does not hold for every
token. -/
theorem c4_counterexample :
    get_token (set_token ⟨none, none⟩ 0 "" 3600) 100 = none ∧
    (100 : Int) < 0 + (3600 - 60) := by
  constructor
  · rfl
  · decide

/-- C4 amended: for every **non-empty** token and TTL `t`, `set_token`
stores the token with expiry `now + t - 60` seconds and `get_token` returns
it exactly when the current time is strictly before that expiry; an empty
cache (no token stored, or cleared) always yields empty. -/
theorem c4_amended_cache_expiry :
    (∀ (st : CacheState) (now : Int) (tok : String) (t now2 : Int), tok ≠ "" →
      get_token (set_token st now tok t) now2 =
        if now2 < now + (t - 60) then some tok else none) ∧
    (∀ now : Int, get_token clear_token now = none) ∧
    (∀ (st : CacheState) (now : Int), st.token = none → get_token st now = none) := by
  refine ⟨?_, ?_, ?_⟩
  · intro st now tok t now2 h
    simp [set_token, get_token, h]
  · intro now
    rfl
  · intro st now h
    unfold get_token
    rw [h]

/-- Witness for the amended C4: a non-empty token set at time 0 with TTL
3600 is returned at time 3539 and no longer at time 3540. -/
theorem c4_amended_witness :
    get_token (set_token ⟨none, none⟩ 0 "abc" 3600) 3539 = some "abc" ∧
    get_token (set_token ⟨none, none⟩ 0 "abc" 3600) 3540 = none := by
  have h1 := c4_amended_cache_expiry.1 ⟨none, none⟩ 0 "abc" 3600 3539 (by decide)
  have h2 := c4_amended_cache_expiry.1 ⟨none, none⟩ 0 "abc" 3600 3540 (by decide)
  rw [h1, h2]
  constructor
  · decide
  · decide

/-- C10: storing the empty string as the token makes every subsequent
`get_token` return empty, even while the stored expiry is still in the
future; in general `get_token` only ever returns a non-empty token, an edge
beyond the expiry condition, caused by the truthiness test on `_token`. -/
theorem c10_empty_token_never_returned :
    (∀ (st : CacheState) (now t now2 : Int),
      get_token (set_token st now "" t) now2 = none) ∧
    (∀ (st : CacheState) (now : Int) (tok : String),
      get_token st now = some tok → tok ≠ "") := by
  constructor
  · intro st now t now2
    simp [set_token, get_token]
  · intro st now tok h
    exact (get_token_some h).2.1

/-- Witness for C10: concrete instances of both conjuncts. -/
theorem c10_witness :
    get_token (set_token ⟨none, none⟩ 0 "" 3600 : CacheState) 100 = none ∧
    "tok" ≠ "" :=
  ⟨c10_empty_token_never_returned.1 ⟨none, none⟩ 0 3600 100,
   c10_empty_token_never_returned.2 ⟨some "tok", some 10⟩ 0 "tok" rfl⟩

/-! ## AuthService lemmas -/

/-- On a cache hit with `force_refresh` false, `get_access_token` returns
the cached token with the cache unchanged, no outbound call and no
mutation. -/
lemma auth_hit (st : CacheState) (now : Int) (oauth : OAuthResult)
    (t : String) (h : get_token st now = some t) :
    get_access_token st now oauth false = ⟨.ok t, st, 0, 0⟩ := by
  unfold get_access_token
  rw [if_neg Bool.false_ne_true, h]

/-- On a cache miss with `force_refresh` false, the call is the refresh
block. -/
lemma auth_miss (st : CacheState) (now : Int) (oauth : OAuthResult)
    (h : get_token st now = none) :
    get_access_token st now oauth false = oauth_refresh st now oauth := by
  unfold get_access_token
  rw [if_neg Bool.false_ne_true, h]

/-- With `force_refresh` true the cache is skipped and the refresh block
runs. -/
lemma auth_force (st : CacheState) (now : Int) (oauth : OAuthResult) :
    get_access_token st now oauth true = oauth_refresh st now oauth := by
  unfold get_access_token
  rw [if_pos rfl]

/-- The refresh block always issues exactly one outbound OAuth request. -/
lemma refresh_netCalls (st : CacheState) (now : Int) (oauth : OAuthResult) :
    (oauth_refresh st now oauth).netCalls = 1 := by
  cases oauth with
  | timeout => rfl
  | response status tok exp =>
    by_cases hs : status ≠ 200
    · simp [oauth_refresh, hs]
    · cases tok with
      | none => simp [oauth_refresh, hs]
      | some t0 =>
        by_cases ht0 : t0 = "" <;> simp [oauth_refresh, hs, ht0]

/-- A successful refresh caches exactly the returned non-empty token and
performs exactly one `set_token` call. -/
lemma refresh_ok_facts (st : CacheState) (now : Int) (oauth : OAuthResult)
    (t : String) (h : (oauth_refresh st now oauth).result = .ok t) :
    (oauth_refresh st now oauth).cache.token = some t ∧ t ≠ "" ∧
    (oauth_refresh st now oauth).setCalls = 1 := by
  cases oauth with
  | timeout => exact absurd h (by simp [oauth_refresh])
  | response status tok exp =>
    by_cases hs : status ≠ 200
    · exact absurd h (by simp [oauth_refresh, hs])
    · cases tok with
      | none => exact absurd h (by simp [oauth_refresh, hs])
      | some t0 =>
        by_cases ht0 : t0 = ""
        · exact absurd h (by simp [oauth_refresh, hs, ht0])
        · rw [show oauth_refresh st now (.response status (some t0) exp) =
              ⟨.ok t0, set_token st now t0 (exp.getD 3600), 1, 1⟩ from by
            simp [oauth_refresh, hs, ht0]] at h ⊢
          injection h with h
          subst h
          exact ⟨rfl, ht0, rfl⟩

/-- A failed refresh performs no `set_token` call. -/
lemma refresh_err_setCalls (st : CacheState) (now : Int) (oauth : OAuthResult)
    (e : Nat) (h : (oauth_refresh st now oauth).result = .error e) :
    (oauth_refresh st now oauth).setCalls = 0 := by
  cases oauth with
  | timeout => rfl
  | response status tok exp =>
    by_cases hs : status ≠ 200
    · simp [oauth_refresh, hs]
    · cases tok with
      | none => simp [oauth_refresh, hs]
      | some t0 =>
        by_cases ht0 : t0 = ""
        · simp [oauth_refresh, hs, ht0]
        · exact absurd h (by simp [oauth_refresh, hs, ht0])

/-- Every call issues at most one outbound OAuth request. -/
lemma auth_netCalls_le_one (st : CacheState) (now : Int) (oauth : OAuthResult)
    (fr : Bool) : (get_access_token st now oauth fr).netCalls ≤ 1 := by
  cases fr with
  | true =>
    rw [auth_force, refresh_netCalls]
  | false =>
    cases hc : get_token st now with
    | some t => rw [auth_hit st now oauth t hc]; exact Nat.zero_le 1
    | none => rw [auth_miss st now oauth hc, refresh_netCalls]

/-- C3: with `force_refresh` false and an unexpired cached token,
`get_access_token` returns the cached token immediately — no outbound OAuth
call, no cache mutation, cache state unchanged; two successive calls
without intervening expiry issue at most one outbound OAuth call in total
(the second call issues none); each successful refresh performs exactly one
`set_token` call, and a failed call performs none. -/
theorem c3_cached_token_short_circuit :
    ∀ (st : CacheState) (now : Int) (oauth : OAuthResult),
      (∀ t, get_token st now = some t →
        get_access_token st now oauth false = ⟨.ok t, st, 0, 0⟩) ∧
      (∀ t now2 oauth2 e,
        (get_access_token st now oauth false).result = .ok t →
        (get_access_token st now oauth false).cache.expiry = some e →
        now2 < e →
        (get_access_token (get_access_token st now oauth false).cache now2
            oauth2 false).netCalls = 0 ∧
        (get_access_token st now oauth false).netCalls +
          (get_access_token (get_access_token st now oauth false).cache now2
            oauth2 false).netCalls ≤ 1) ∧
      (∀ fr t, (get_access_token st now oauth fr).result = .ok t →
        (get_access_token st now oauth fr).netCalls = 1 →
        (get_access_token st now oauth fr).setCalls = 1) ∧
      (∀ fr e, (get_access_token st now oauth fr).result = .error e →
        (get_access_token st now oauth fr).setCalls = 0) := by
  intro st now oauth
  have hcachetok : ∀ t, (get_access_token st now oauth false).result = .ok t →
      (get_access_token st now oauth false).cache.token = some t ∧ t ≠ "" := by
    intro t hok
    cases hc : get_token st now with
    | some c =>
      rw [auth_hit st now oauth c hc] at hok ⊢
      injection hok with hok
      subst hok
      exact ⟨(get_token_some hc).1, (get_token_some hc).2.1⟩
    | none =>
      rw [auth_miss st now oauth hc] at hok ⊢
      exact ⟨(refresh_ok_facts st now oauth t hok).1,
        (refresh_ok_facts st now oauth t hok).2.1⟩
  refine ⟨fun t h => auth_hit st now oauth t h, ?_, ?_, ?_⟩
  · intro t now2 oauth2 e hok hexp hlt
    obtain ⟨htok, hne⟩ := hcachetok t hok
    have hget : get_token (get_access_token st now oauth false).cache now2 =
        some t := by
      unfold get_token
      rw [htok, hexp]
      simp [hne, hlt]
    rw [auth_hit _ _ oauth2 _ hget]
    exact ⟨rfl, by simpa using auth_netCalls_le_one st now oauth false⟩
  · intro fr t hok hnet
    cases fr with
    | true =>
      rw [auth_force] at hok ⊢
      exact (refresh_ok_facts st now oauth t hok).2.2
    | false =>
      cases hc : get_token st now with
      | some c =>
        rw [auth_hit st now oauth c hc] at hnet
        exact absurd hnet (by simp)
      | none =>
        rw [auth_miss st now oauth hc] at hok ⊢
        exact (refresh_ok_facts st now oauth t hok).2.2
  · intro fr e herr
    cases fr with
    | true =>
      rw [auth_force] at herr ⊢
      exact refresh_err_setCalls st now oauth e herr
    | false =>
      cases hc : get_token st now with
      | some c =>
        rw [auth_hit st now oauth c hc] at herr
        exact absurd herr (by simp)
      | none =>
        rw [auth_miss st now oauth hc] at herr ⊢
        exact refresh_err_setCalls st now oauth e herr

/-- Witness for C3 at a concrete state: a cached valid token is returned
unchanged with zero calls; the second of two successive calls issues no
outbound call, so the pair together issues none. -/
theorem c3_witness :
    get_access_token ⟨some "tok", some 100⟩ 0 .timeout false =
      ⟨.ok "tok", ⟨some "tok", some 100⟩, 0, 0⟩ ∧
    (get_access_token ⟨some "tok", some 100⟩ 0 .timeout false).netCalls +
      (get_access_token
        (get_access_token ⟨some "tok", some 100⟩ 0 .timeout false).cache 50
        .timeout false).netCalls ≤ 1 :=
  ⟨(c3_cached_token_short_circuit ⟨some "tok", some 100⟩ 0 .timeout).1 "tok" rfl,
   ((c3_cached_token_short_circuit ⟨some "tok", some 100⟩ 0 .timeout).2.1 "tok"
      50 .timeout 100 rfl rfl (by decide)).2⟩

/-! ## format_phone_number lemmas -/

/-- The validation guard characterised: a valid cleaned number is "254"
followed by exactly nine digits, hence twelve digits in total. -/
lemma validPhone_shape {l : List Char} (h : validPhone l = true) :
    l.length = 12 ∧ l.take 3 = ['2', '5', '4'] ∧ l.all Char.isDigit = true := by
  simp only [validPhone, Bool.and_eq_true, decide_eq_true_eq] at h
  obtain ⟨⟨ht, hl⟩, hd⟩ := h
  have hsplit := List.take_append_drop 3 l
  refine ⟨?_, ht, ?_⟩
  · calc l.length = (l.take 3 ++ l.drop 3).length := by rw [hsplit]
    _ = (l.take 3).length + (l.drop 3).length := List.length_append _ _
    _ = 12 := by rw [ht, hl]; rfl
  · rw [← hsplit, List.all_append, ht, hd]
    rfl

/-- C9: `format_phone_number` either returns a string of exactly twelve
digits beginning with "254" or raises `ValueError`; the input "0712345678"
is normalized to "254712345678". -/
theorem c9_phone_normalization :
    format_phone_number "0712345678".data = .ok "254712345678".data ∧
    ∀ s r, format_phone_number s = .ok r →
      r.length = 12 ∧ r.take 3 = ['2', '5', '4'] ∧ r.all Char.isDigit = true := by
  constructor
  · rfl
  · intro s r h
    simp only [format_phone_number] at h
    split at h
    · rename_i hv
      injection h with h
      subst h
      exact validPhone_shape hv
    · exact absurd h (by simp)

/-- Witness for C9: the concrete normalization together with the shape
facts it guarantees. -/
theorem c9_phone_witness :
    format_phone_number "0712345678".data = .ok "254712345678".data ∧
    "254712345678".data.length = 12 ∧
    "254712345678".data.take 3 = ['2', '5', '4'] ∧
    "254712345678".data.all Char.isDigit = true :=
  ⟨c9_phone_normalization.1,
   c9_phone_normalization.2 "0712345678".data "254712345678".data
     c9_phone_normalization.1⟩

/-! ## STKPushCallback metadata claims -/

/-- C5: the claim fails on the code.  An `Amount` metadata item that lacks a
`Value` key yields `amount = 0.0` — `float(item.get('Value', 0))` defaults
the missing value to `0` — so the amount is defaulted to zero although no
amount is present in the source metadata; likewise a `MpesaReceiptNumber`
item without a `Value` populates the receipt with the string "None". -/
theorem c5_counterexample :
    STKPushCallback.amount ⟨"m", "c", 0, "d", some [⟨some "Amount", none⟩]⟩ =
      .ok (some 0) ∧
    STKPushCallback.mpesa_receipt_number
      ⟨"m", "c", 0, "d", some [⟨some "MpesaReceiptNumber", none⟩]⟩ =
      some "None" :=
  ⟨rfl, rfl⟩

/-- C5 amended: when the first `Amount` item carries a numeric value `v`,
the normalized amount is exactly `v`; when no `Amount` item is present (or
there is no metadata at all) the amount is absent, not `0.0`; the same
present-only rule holds for the receipt number, transaction date and phone
number.  However, an item that bears the matching name but lacks a `Value`
key yields a default: `0.0` for the amount and the string "None" for the
string-valued fields (never the empty string); and an explicit `null`
value under `Amount` makes the accessor raise. -/
theorem c5_amended_metadata_fields :
    ∀ (cb : STKPushCallback),
      (cb.callback_metadata = none →
        cb.amount = .ok none ∧ cb.mpesa_receipt_number = none ∧
        cb.transaction_date = none ∧ cb.phone_number = none) ∧
      (∀ items, cb.callback_metadata = some items →
        (firstItemNamed "Amount" items = none → cb.amount = .ok none) ∧
        (∀ it v, firstItemNamed "Amount" items = some it →
          it.value = some (.vNum v) → cb.amount = .ok (some v)) ∧
        (∀ it, firstItemNamed "Amount" items = some it → it.value = none →
          cb.amount = .ok (some 0)) ∧
        (∀ it, firstItemNamed "Amount" items = some it →
          it.value = some .vNone → cb.amount = .error ()) ∧
        (firstItemNamed "MpesaReceiptNumber" items = none →
          cb.mpesa_receipt_number = none) ∧
        (∀ it, firstItemNamed "MpesaReceiptNumber" items = some it →
          it.value = none → cb.mpesa_receipt_number = some "None") ∧
        (firstItemNamed "TransactionDate" items = none →
          cb.transaction_date = none) ∧
        (firstItemNamed "PhoneNumber" items = none →
          cb.phone_number = none)) := by
  intro cb
  constructor
  · intro h
    exact ⟨by simp [STKPushCallback.amount, h],
      by simp [STKPushCallback.mpesa_receipt_number, h],
      by simp [STKPushCallback.transaction_date, h],
      by simp [STKPushCallback.phone_number, h]⟩
  · intro items hmd
    refine ⟨?_, ?_, ?_, ?_, ?_, ?_, ?_, ?_⟩
    · intro hfind
      simp [STKPushCallback.amount, hmd, hfind]
    · intro it v hfind hval
      simp [STKPushCallback.amount, hmd, hfind, hval, pyFloatOfValue]
    · intro it hfind hval
      simp [STKPushCallback.amount, hmd, hfind, hval, pyFloatOfValue]
    · intro it hfind hval
      simp [STKPushCallback.amount, hmd, hfind, hval, pyFloatOfValue]
    · intro hfind
      simp [STKPushCallback.mpesa_receipt_number, hmd, hfind]
    · intro it hfind hval
      simp [STKPushCallback.mpesa_receipt_number, hmd, hfind, hval,
        pyStrOfValue]
    · intro hfind
      simp [STKPushCallback.transaction_date, hmd, hfind]
    · intro hfind
      simp [STKPushCallback.phone_number, hmd, hfind]

/-- Witness for the amended C5: a metadata list whose first `Amount` item
carries the numeric value 1 yields amount exactly 1; a list without an
`Amount` item yields an absent amount. -/
theorem c5_amended_witness :
    STKPushCallback.amount
      ⟨"m", "c", 0, "d", some [⟨some "Amount", some (.vNum 1)⟩]⟩ =
      .ok (some 1) ∧
    STKPushCallback.amount
      ⟨"m", "c", 0, "d", some [⟨some "PhoneNumber", some (.vNum 7)⟩]⟩ =
      .ok none :=
  ⟨(((c5_amended_metadata_fields
        ⟨"m", "c", 0, "d", some [⟨some "Amount", some (.vNum 1)⟩]⟩).2
      [⟨some "Amount", some (.vNum 1)⟩] rfl).2.1)
      ⟨some "Amount", some (.vNum 1)⟩ 1 rfl rfl,
   (((c5_amended_metadata_fields
        ⟨"m", "c", 0, "d", some [⟨some "PhoneNumber", some (.vNum 7)⟩]⟩).2
      [⟨some "PhoneNumber", some (.vNum 7)⟩] rfl).1) rfl⟩

/-! ## Success derivation claims -/

/-- C6: for both normalized callback variants the success flag is exactly
`result_code == 0` (neither model stores an independent success field): a
validated push callback with `ResultCode 0` has `is_successful`, one with
`ResultCode 2001` does not and keeps `result_code = 2001`; the same holds
for the disbursement variant through the handler's branch predicate. -/
theorem c6_succeeded_is_result_code_zero :
    (∀ cb : STKPushCallback, cb.is_successful = true ↔ cb.result_code = 0) ∧
    (∀ cb : B2CCallback, b2cSucceeded cb = true ↔ cb.result_code = 0) ∧
    (∀ raw cb, validateSTK raw = .ok cb → raw.ResultCode = some 0 →
      cb.is_successful = true) ∧
    (∀ raw cb, validateSTK raw = .ok cb → raw.ResultCode = some 2001 →
      cb.is_successful = false ∧ cb.result_code = 2001) ∧
    (∀ raw cb, validateB2C raw = .ok cb → raw.ResultCode = some 0 →
      b2cSucceeded cb = true) ∧
    (∀ raw cb, validateB2C raw = .ok cb → raw.ResultCode = some 2001 →
      b2cSucceeded cb = false ∧ cb.result_code = 2001) := by
  have hstk : ∀ raw cb, validateSTK raw = .ok cb →
      cb.result_code = (raw.ResultCode.getD 0) ∨ raw.ResultCode = none := by
    intro raw cb h
    unfold validateSTK at h
    split at h
    · rename_i m c rc rd hm hc hrc hrd
      injection h with h
      subst h
      left
      rw [hrc]
      rfl
    · exact absurd h (by simp)
  have hb2c : ∀ raw cb, validateB2C raw = .ok cb →
      cb.result_code = (raw.ResultCode.getD 0) ∨ raw.ResultCode = none := by
    intro raw cb h
    unfold validateB2C at h
    split at h
    · rename_i rc rd rt hrc hrd hrt
      injection h with h
      subst h
      left
      rw [hrc]
      rfl
    · exact absurd h (by simp)
  refine ⟨?_, ?_, ?_, ?_, ?_, ?_⟩
  · intro cb
    simp [STKPushCallback.is_successful]
  · intro cb
    simp [b2cSucceeded]
  · intro raw cb h hrc
    rcases hstk raw cb h with hr | hr
    · simp [STKPushCallback.is_successful, hr, hrc]
    · rw [hr] at hrc; exact absurd hrc (by simp)
  · intro raw cb h hrc
    rcases hstk raw cb h with hr | hr
    · rw [hrc] at hr
      exact ⟨by simp [STKPushCallback.is_successful, hr], by simpa using hr⟩
    · rw [hr] at hrc; exact absurd hrc (by simp)
  · intro raw cb h hrc
    rcases hb2c raw cb h with hr | hr
    · simp [b2cSucceeded, hr, hrc]
    · rw [hr] at hrc; exact absurd hrc (by simp)
  · intro raw cb h hrc
    rcases hb2c raw cb h with hr | hr
    · rw [hrc] at hr
      exact ⟨by simp [b2cSucceeded, hr], by simpa using hr⟩
    · rw [hr] at hrc; exact absurd hrc (by simp)

/-- Witness for C6: concrete payloads, one succeeding (`ResultCode 0`) and
one failing with code 2001, for each callback variant. -/
theorem c6_witness :
    STKPushCallback.is_successful ⟨"m", "c", 0, "d", none⟩ = true ∧
    (STKPushCallback.is_successful ⟨"m", "c", 2001, "d", none⟩ = false ∧
      (2001 : Int) = 2001) ∧
    b2cSucceeded ⟨none, none, none, 0, "d", 0, none, none⟩ = true ∧
    (b2cSucceeded ⟨none, none, none, 2001, "d", 0, none, none⟩ = false ∧
      (2001 : Int) = 2001) :=
  ⟨c6_succeeded_is_result_code_zero.2.2.1
      ⟨some "m", some "c", some 0, some "d", none⟩ ⟨"m", "c", 0, "d", none⟩
      rfl rfl,
   c6_succeeded_is_result_code_zero.2.2.2.1
      ⟨some "m", some "c", some 2001, some "d", none⟩
      ⟨"m", "c", 2001, "d", none⟩ rfl rfl,
   c6_succeeded_is_result_code_zero.2.2.2.2.1
      ⟨none, none, none, some 0, some "d", some 0, none, none⟩
      ⟨none, none, none, 0, "d", 0, none, none⟩ rfl rfl,
   c6_succeeded_is_result_code_zero.2.2.2.2.2
      ⟨none, none, none, some 2001, some "d", some 0, none, none⟩
      ⟨none, none, none, 2001, "d", 0, none, none⟩ rfl rfl⟩

/-! ## Callback boundary claims -/

/-- C2: every inbound callback request — push-to-pay result, disbursement
result, disbursement timeout — receives a success envelope, whatever the
processing outcome: JSON-parse failures, validation failures, broadcast
failures and metadata `KeyError`s are all absorbed by the handler's
`except` branch, which still answers with a `SuccessResponse`. -/
theorem c2_callbacks_always_succeed :
    ∀ (stkBody : Except Unit RawStkCallback)
      (b2cBody : Except Unit RawB2CResult) (jsonOk : Bool)
      (clients : List Nat) (sendOk : Nat → Bool),
      (stk_push_callback stkBody clients sendOk).isSuccess = true ∧
      (b2c_result_callback b2cBody clients sendOk).isSuccess = true ∧
      (b2c_timeout_callback jsonOk clients sendOk).isSuccess = true := by
  intro stkBody b2cBody jsonOk clients sendOk
  refine ⟨?_, ?_, ?_⟩
  · unfold stk_push_callback
    split
    · rfl
    · split
      · rfl
      · split
        · rfl
        · split
          · split
            · rfl
            · split
              · rfl
              · rfl
          · rfl
  · unfold b2c_result_callback
    split
    · rfl
    · split
      · rfl
      · split
        · rfl
        · split
          · split
            · rfl
            · split
              · rfl
              · rfl
          · rfl
  · unfold b2c_timeout_callback
    split
    · split
      · rfl
      · rfl
    · rfl

/-! ## Replay guard claims -/

/-- Every protected path starts with `/api/v1/`, so the middleware's first
filter never bypasses a protected path. -/
lemma protected_starts_api {p : String} (h : p ∈ PROTECTED_ENDPOINTS) :
    pyStartsWith p "/api/v1/" = true := by
  simp only [PROTECTED_ENDPOINTS, List.mem_cons, List.not_mem_nil,
    or_false] at h
  rcases h with h | h | h <;> subst h <;> decide

/-- C7: the replay guard applies only to the configured protected paths —
every other path passes through unchecked — and on a protected path it
validates in short-circuit order: missing or falsy headers give 400 (before
any registry or timestamp look-up), an unregistered caller key gives 403
(before the timestamp is even parsed), an unparsable timestamp gives 400,
and the request proceeds exactly when `|now - timestamp|` is at most 2
minutes, being rejected with 400 beyond that window. -/
theorem c7_replay_guard_window :
    ∀ (parse : String → Option Int) (now : Int) (req : SecRequest),
      (req.path ∉ PROTECTED_ENDPOINTS →
        payment_security_middleware parse now req = .bypass) ∧
      (req.path ∈ PROTECTED_ENDPOINTS →
        ((req.merchantKey = none ∨ req.timestampHdr = none ∨
            req.merchantKey = some "" ∨ req.timestampHdr = some "") →
          payment_security_middleware parse now req =
            .reject 400 "Missing required headers") ∧
        (∀ mk ts, req.merchantKey = some mk → req.timestampHdr = some ts →
          mk ≠ "" → ts ≠ "" → mk ∉ REGISTERED_MERCHANT_KEYS →
          payment_security_middleware parse now req =
            .reject 403 "Invalid merchant ID") ∧
        (∀ mk ts, req.merchantKey = some mk → req.timestampHdr = some ts →
          mk ≠ "" → ts ≠ "" → mk ∈ REGISTERED_MERCHANT_KEYS →
          parse (ts.replace "Z" "+00:00") = none →
          payment_security_middleware parse now req =
            .reject 400 "Invalid timestamp format (use ISO 8601)") ∧
        (∀ mk ts t, req.merchantKey = some mk → req.timestampHdr = some ts →
          mk ≠ "" → ts ≠ "" → mk ∈ REGISTERED_MERCHANT_KEYS →
          parse (ts.replace "Z" "+00:00") = some t →
          (120 < (now - t).natAbs →
            payment_security_middleware parse now req =
              .reject 400 "Request timestamp too old or in the future") ∧
          (payment_security_middleware parse now req = .proceed ↔
            (now - t).natAbs ≤ 120))) := by
  intro parse now req
  constructor
  · intro hout
    by_cases hsw : pyStartsWith req.path "/api/v1/" = true
    · have hcf : PROTECTED_ENDPOINTS.contains req.path = false := by
        cases hc : PROTECTED_ENDPOINTS.contains req.path
        · rfl
        · exact absurd (List.mem_of_elem_eq_true hc) hout
      unfold payment_security_middleware
      rw [if_neg (not_not_intro hsw),
        if_pos (hcf ▸ Bool.false_ne_true : ¬ PROTECTED_ENDPOINTS.contains req.path = true)]
    · unfold payment_security_middleware
      rw [if_pos hsw]
  · intro hp
    have hsw := protected_starts_api hp
    have hct : PROTECTED_ENDPOINTS.contains req.path = true :=
      List.elem_eq_true_of_mem hp
    have hred : payment_security_middleware parse now req =
        (match req.merchantKey, req.timestampHdr with
          | some mk, some ts =>
            if mk = "" ∨ ts = "" then
              MwResult.reject 400 "Missing required headers"
            else if ¬ REGISTERED_MERCHANT_KEYS.contains mk then
              MwResult.reject 403 "Invalid merchant ID"
            else
              match parse (ts.replace "Z" "+00:00") with
              | none => MwResult.reject 400 "Invalid timestamp format (use ISO 8601)"
              | some t =>
                if 120 < (now - t).natAbs then
                  MwResult.reject 400 "Request timestamp too old or in the future"
                else MwResult.proceed
          | _, _ => MwResult.reject 400 "Missing required headers") := by
      unfold payment_security_middleware
      rw [if_neg (not_not_intro hsw), if_neg (not_not_intro hct)]
    have hred2 : ∀ mk ts, req.merchantKey = some mk →
        req.timestampHdr = some ts →
        payment_security_middleware parse now req =
          (if mk = "" ∨ ts = "" then
            MwResult.reject 400 "Missing required headers"
          else if ¬ REGISTERED_MERCHANT_KEYS.contains mk then
            MwResult.reject 403 "Invalid merchant ID"
          else
            match parse (ts.replace "Z" "+00:00") with
            | none => MwResult.reject 400 "Invalid timestamp format (use ISO 8601)"
            | some t =>
              if 120 < (now - t).natAbs then
                MwResult.reject 400 "Request timestamp too old or in the future"
              else MwResult.proceed) := by
      intro mk ts hmk hts
      rw [hred, hmk, hts]
    refine ⟨?_, ?_, ?_, ?_⟩
    · intro hmiss
      rcases hmk : req.merchantKey with _ | mk <;>
        rcases hts : req.timestampHdr with _ | ts
      · rw [hred, hmk, hts]
      · rw [hred, hmk, hts]
      · rw [hred, hmk, hts]
      · rw [hmk, hts] at hmiss
        have hor : mk = "" ∨ ts = "" := by
          rcases hmiss with h | h | h | h
          · exact absurd h (by simp)
          · exact absurd h (by simp)
          · left; injection h
          · right; injection h
        rw [hred2 mk ts hmk hts, if_pos hor]
    · intro mk ts hmk hts hmk0 hts0 hreg
      have hcf : REGISTERED_MERCHANT_KEYS.contains mk = false := by
        cases hc : REGISTERED_MERCHANT_KEYS.contains mk
        · rfl
        · exact absurd (List.mem_of_elem_eq_true hc) hreg
      rw [hred2 mk ts hmk hts, if_neg (by simp [hmk0, hts0]),
        if_pos (hcf ▸ Bool.false_ne_true : ¬ REGISTERED_MERCHANT_KEYS.contains mk = true)]
    · intro mk ts hmk hts hmk0 hts0 hreg hparse
      have hcr : REGISTERED_MERCHANT_KEYS.contains mk = true :=
        List.elem_eq_true_of_mem hreg
      rw [hred2 mk ts hmk hts, if_neg (by simp [hmk0, hts0]),
        if_neg (not_not_intro hcr), hparse]
    · intro mk ts t hmk hts hmk0 hts0 hreg hparse
      have hcr : REGISTERED_MERCHANT_KEYS.contains mk = true :=
        List.elem_eq_true_of_mem hreg
      have hred3 : payment_security_middleware parse now req =
          (if 120 < (now - t).natAbs then
            MwResult.reject 400 "Request timestamp too old or in the future"
          else MwResult.proceed) := by
        rw [hred2 mk ts hmk hts, if_neg (by simp [hmk0, hts0]),
          if_neg (not_not_intro hcr), hparse]
      constructor
      · intro hw
        rw [hred3, if_pos hw]
      · by_cases hw : 120 < (now - t).natAbs
        · rw [hred3, if_pos hw]
          exact ⟨fun h => MwResult.noConfusion h, fun h => absurd hw (by omega)⟩
        · rw [hred3, if_neg hw]
          exact ⟨fun _ => by omega, fun _ => rfl⟩

/-- Witness for C7 on concrete requests: a non-protected path bypasses the
guard; on the protected disbursement path a registered caller whose
timestamp parses to 121 seconds away from now (2 min 1 s) is rejected with
400, and one 119 seconds away (1 min 59 s) proceeds; an unknown caller gets
403 and missing headers get 400. -/
theorem c7_replay_guard_witness :
    payment_security_middleware (fun _ => some 121) 0 ⟨"/health", none, none⟩ =
      .bypass ∧
    payment_security_middleware (fun _ => some 121) 0
      ⟨"/api/v1/b2c/payment", some "merchant_123", some "2026-01-01T00:02:01Z"⟩ =
      .reject 400 "Request timestamp too old or in the future" ∧
    payment_security_middleware (fun _ => some 119) 0
      ⟨"/api/v1/b2c/payment", some "merchant_123", some "2026-01-01T00:01:59Z"⟩ =
      .proceed ∧
    payment_security_middleware (fun _ => some 119) 0
      ⟨"/api/v1/b2c/payment", some "intruder", some "2026-01-01T00:01:59Z"⟩ =
      .reject 403 "Invalid merchant ID" ∧
    payment_security_middleware (fun _ => some 119) 0
      ⟨"/api/v1/b2c/payment", none, none⟩ =
      .reject 400 "Missing required headers" := by
  refine ⟨?_, ?_, ?_, ?_, ?_⟩
  · exact (c7_replay_guard_window (fun _ => some 121) 0
      ⟨"/health", none, none⟩).1 (by decide)
  · exact (((c7_replay_guard_window (fun _ => some 121) 0
      ⟨"/api/v1/b2c/payment", some "merchant_123", some "2026-01-01T00:02:01Z"⟩).2
      (by decide)).2.2.2 "merchant_123" "2026-01-01T00:02:01Z" 121 rfl rfl
      (by decide) (by decide) (by decide) rfl).1 (by decide)
  · exact (((c7_replay_guard_window (fun _ => some 119) 0
      ⟨"/api/v1/b2c/payment", some "merchant_123", some "2026-01-01T00:01:59Z"⟩).2
      (by decide)).2.2.2 "merchant_123" "2026-01-01T00:01:59Z" 119 rfl rfl
      (by decide) (by decide) (by decide) rfl).2.2 (by decide)
  · exact ((c7_replay_guard_window (fun _ => some 119) 0
      ⟨"/api/v1/b2c/payment", some "intruder", some "2026-01-01T00:01:59Z"⟩).2
      (by decide)).2.1 "intruder" "2026-01-01T00:01:59Z" rfl rfl
      (by decide) (by decide) (by decide)
  · exact ((c7_replay_guard_window (fun _ => some 119) 0
      ⟨"/api/v1/b2c/payment", none, none⟩).2 (by decide)).1 (Or.inl rfl)

end FastDaraja
